import Mathlib

/-!
Shallow embedding of the restaurantsite repository (Flask application) in
Lean 4, together with theorems settling the frozen claims about it.

The repository contains two overlapping variants of the application:
a monolithic one (`app.py`) and a modularized one (`main.py` routing over
`crud.py`, `models.py`, `forms.py`, `utils.py`).  Where the two variants
differ, both are embedded, with the `app_` prefix marking the monolith.

Conventions of the embedding:
  - SQL `Numeric` (decimal) columns are modelled as `Rat` (exact values,
    no column-level quantization);
  - database tables are modelled as Lean lists of structures, a row
    mutation as a `List.map` replacing the matched row;
  - Python `round(x, 1)` (rounds half to even) is modelled by `pyRound1`;
  - Python `int(s)` is modelled by `pyInt` (valid for ASCII strings
    without digit-group underscores, the only inputs it receives here);
  - library primitives that are not repository code (SHA-1) are taken as
    function parameters; base64 encoding is embedded concretely.
-/

/-- Round a rational to the nearest integer, ties to even: the semantics
of Python round() on exact decimal inputs. -/
def roundHalfEven (x : ℚ) : ℤ :=
  let f : ℤ := ⌊x⌋
  if x - f < 1/2 then f
  else if (1:ℚ)/2 < x - f then f + 1
  else if Even f then f else f + 1

/-- Python round(x, 1): scale by 10, round half to even, scale back. -/
def pyRound1 (x : ℚ) : ℚ :=
  (roundHalfEven (10 * x) : ℚ) / 10

/-- Python int(s) on an ASCII string without digit-group underscores:
strip surrounding whitespace, allow one optional sign, then require a
nonempty run of decimal digits. Returns none where int() raises.
Strings are processed as their code-point lists, matching the Python
view of str as a sequence of code points. -/
def pyIntChars (cs : List Char) : Option ℤ :=
  let t := ((cs.dropWhile Char.isWhitespace).reverse.dropWhile
    Char.isWhitespace).reverse
  let core := match t with
    | c :: rest => if c = '-' ∨ c = '+' then rest else t
    | [] => t
  let sign : ℤ := match t with
    | c :: _ => if c = '-' then -1 else 1
    | [] => 1
  if core.length > 0 ∧ core.all Char.isDigit then
    some (sign * (core.foldl (fun acc c => acc * 10 + (c.toNat - 48)) 0 : ℕ))
  else
    none

/-- Python int() on a string. -/
def pyInt (s : String) : Option ℤ :=
  pyIntChars s.data

/-- Python s.split(sep) for a one-character separator, on the
code-point list: splitting the empty string yields one empty segment,
and adjacent separators yield empty segments, as in Python. -/
def splitOnChar (sep : Char) : List Char → List (List Char)
  | [] => [[]]
  | c :: rest =>
      match splitOnChar sep rest with
      | [] => [[c]]
      | g :: gs => if c = sep then [] :: g :: gs else (c :: g) :: gs

-- ── Bytes, UTF-8 and base64 (models of Python str.encode / base64.b64encode) ──

/-- UTF-8 encoding of a single unicode code point, as a list of byte values. -/
def utf8EncodeCodePoint (n : ℕ) : List ℕ :=
  if n < 0x80 then [n]
  else if n < 0x800 then
    [0xC0 + n / 0x40, 0x80 + n % 0x40]
  else if n < 0x10000 then
    [0xE0 + n / 0x1000, 0x80 + n / 0x40 % 0x40, 0x80 + n % 0x40]
  else
    [0xF0 + n / 0x40000, 0x80 + n / 0x1000 % 0x40, 0x80 + n / 0x40 % 0x40,
     0x80 + n % 0x40]

/-- UTF-8 encoding of a string: the model of Python s.encode("utf-8"). -/
def utf8Bytes (s : String) : List ℕ :=
  s.data.flatMap (fun c => utf8EncodeCodePoint c.toNat)

/-- The standard base64 alphabet, indexed 0..63. -/
def b64Alphabet : List Char :=
  "ABCDEFGHIJKLMNOPQRSTUVWXYZabcdefghijklmnopqrstuvwxyz0123456789+/".data

/-- Character of the base64 alphabet at a 6-bit index. -/
def b64Char (n : ℕ) : Char := b64Alphabet.getD n 'A'

/-- Base64 encoding of a byte list, 3 bytes to 4 characters with `=`
padding: the model of Python base64.b64encode. -/
def b64encode : List ℕ → String
  | [] => ""
  | [a] =>
      String.mk [b64Char (a / 4), b64Char (a % 4 * 16), '=', '=']
  | [a, b] =>
      String.mk [b64Char (a / 4), b64Char (a % 4 * 16 + b / 16),
                 b64Char (b % 16 * 4), '=']
  | a :: b :: c :: rest =>
      String.mk [b64Char (a / 4), b64Char (a % 4 * 16 + b / 16),
                 b64Char (b % 16 * 4 + c / 64), b64Char (c % 64)]
        ++ b64encode rest

/-- Embedding of utils.verify_liqpay_signature.  The SHA-1 digest is a
library primitive, not repository code, so it is a function parameter
from byte lists to byte lists.  The private key is the module-level
LIQPAY_PRIVATE_KEY environment value: `none` models an unset variable,
and the Python falsiness test also rejects an empty string. -/
def verify_liqpay_signature (sha1 : List ℕ → List ℕ)
    (privateKey : Option String) (data_b64 : String) (signature : String) :
    Bool :=
  match privateKey with
  | none => false
  | some k =>
      if k = "" then false
      else
        let key := utf8Bytes k
        let data := utf8Bytes data_b64
        b64encode (sha1 (key ++ data ++ key)) = signature

-- ── Data model (models.py) ─────────────────────────────────────────────────────

/-- Order lifecycle status enumeration from models.py. -/
inductive OrderStatus where
  | new
  | cooking
  | ready
  | delivered
  | cancelled
deriving DecidableEq, Repr

/-- Order fulfillment type enumeration from models.py. -/
inductive OrderType where
  | dine_in
  | takeaway
  | delivery
deriving DecidableEq, Repr

/-- Payment status enumeration from models.py. -/
inductive PaymentStatus where
  | pending
  | paid
  | failed
deriving DecidableEq, Repr

/-- Product row (models.py Product), restricted to the columns the
claims touch; created_at is an abstract tick used only for ordering. -/
structure Product where
  id : ℕ
  name : String
  price : ℚ
  rating : ℚ
  is_available : Bool
  is_deleted : Bool
  created_at : ℕ
deriving DecidableEq, Repr

/-- ProductRating row (models.py), for one product: the (user, value)
pair; the uniqueness constraint makes user_id a key within a product. -/
structure RatingEntry where
  user_id : ℕ
  value : ℚ
deriving DecidableEq, Repr

/-- CartItem row (models.py). -/
structure CartItem where
  user_id : ℕ
  product_id : ℕ
  quantity : ℕ
deriving DecidableEq, Repr

/-- Order row (models.py Order), restricted to the columns the claims
touch. -/
structure Order where
  id : ℕ
  user_id : ℕ
  total : ℚ
  status : OrderStatus
  order_type : OrderType
  payment_status : PaymentStatus
  phone : String
  delivery_address : String
deriving DecidableEq, Repr

/-- OrderItem row (models.py): the immutable snapshot of a product at
order time. -/
structure OrderItem where
  order_id : ℕ
  product_id : ℕ
  product_name : String
  price : ℚ
  quantity : ℕ
deriving DecidableEq, Repr

/-- Table row (models.py Table). -/
structure Table where
  number : ℕ
  type : String
  seats : ℕ
  is_available : Bool
  x : ℤ
  y : ℤ
deriving DecidableEq, Repr

/-- One entry of the JSON list submitted to the table replace-all
endpoint: the fields the admin floor-plan editor sends per table. -/
structure TableData where
  number : ℕ
  type : String
  x : ℤ
  y : ℤ
deriving DecidableEq, Repr

/-- User row (models.py User), restricted to the columns the claims
touch. -/
structure User where
  id : ℕ
  email : String
  is_admin : Bool
  is_active : Bool
deriving DecidableEq, Repr

-- ── Data access: products (crud.py) ────────────────────────────────────────────

/-- Insert a product into a list sorted by descending created_at
(newest first), the order_by of crud.get_all_products. -/
def insertByCreatedDesc (p : Product) : List Product → List Product
  | [] => [p]
  | q :: rest =>
      if q.created_at ≤ p.created_at then p :: q :: rest
      else q :: insertByCreatedDesc p rest

/-- Sort products newest-first by created_at. -/
def sortByCreatedDesc : List Product → List Product
  | [] => []
  | p :: rest => insertByCreatedDesc p (sortByCreatedDesc rest)

/-- Embedding of crud.get_available_products: the products whose
is_available flag is set and whose is_deleted flag is clear. -/
def get_available_products (products : List Product) : List Product :=
  products.filter (fun p => p.is_available && !p.is_deleted)

/-- Embedding of crud.get_all_products: every product, ordered
newest-first. -/
def get_all_products (products : List Product) : List Product :=
  sortByCreatedDesc products

/-- Embedding of the menu route of main.py: it renders
crud.get_all_products(), with no availability or deletion filter. -/
def menu_products (products : List Product) : List Product :=
  get_all_products products

/-- Embedding of the menu route of app.py (the monolith): it filters on
is_available = True and is_deleted = False. -/
def app_menu_products (products : List Product) : List Product :=
  products.filter (fun p => p.is_available && !p.is_deleted)

-- ── Data access: ratings (crud.py) ─────────────────────────────────────────────

/-- Rating state of one product: its stored ProductRating rows and the
displayed rating column of the Product row. -/
structure ProductRatingState where
  ratings : List RatingEntry
  rating : ℚ
deriving DecidableEq, Repr

/-- Replace the value of the row keyed by user_id if present, else
append a new row: the query-then-set-or-add of
crud.add_or_update_rating. -/
def upsertRating (uid : ℕ) (v : ℚ) : List RatingEntry → List RatingEntry
  | [] => [⟨uid, v⟩]
  | e :: rest =>
      if e.user_id = uid then ⟨e.user_id, v⟩ :: rest
      else e :: upsertRating uid v rest

/-- Embedding of crud._recalculate_product_rating: the displayed rating
becomes round(avg or 0, 1) over the ratings of the product. -/
def recalculate_product_rating (rs : List RatingEntry) : ℚ :=
  pyRound1 (if rs = [] then 0 else (rs.map RatingEntry.value).sum / rs.length)

/-- Embedding of crud.add_or_update_rating: reject a value outside
[1, 5] with a ValueError before any write; otherwise upsert the row for
(product, user) and recompute the displayed rating. -/
def add_or_update_rating (st : ProductRatingState) (uid : ℕ) (v : ℚ) :
    Except String ProductRatingState :=
  if ¬(1 ≤ v ∧ v ≤ 5) then
    Except.error "Rating must be between 1 and 5"
  else
    let rs := upsertRating uid v st.ratings
    Except.ok ⟨rs, recalculate_product_rating rs⟩

/-- Embedding of crud.delete_rating: none signals the no-rating case
(the source returns None with no write); otherwise the row is removed
and the displayed rating recomputed. -/
def delete_rating (st : ProductRatingState) (uid : ℕ) :
    Option ProductRatingState :=
  if st.ratings.all (fun e => e.user_id ≠ uid) then
    none
  else
    let rs := st.ratings.filter (fun e => e.user_id ≠ uid)
    some ⟨rs, recalculate_product_rating rs⟩

/-- Sequential upserts of (user, value) pairs against one product,
propagating the ValueError of any rejected value, as a caller issuing
the crud calls one by one would observe. -/
def addAllRatings (st : ProductRatingState) :
    List (ℕ × ℚ) → Except String ProductRatingState
  | [] => Except.ok st
  | (u, v) :: rest =>
      match add_or_update_rating st u v with
      | Except.error e => Except.error e
      | Except.ok st2 => addAllRatings st2 rest

-- ── Data access: tables (crud.py) ──────────────────────────────────────────────

/-- The seat-count policy dictionary SEATS_BY_TYPE of crud.py. -/
def SEATS_BY_TYPE : List (String × ℕ) := [("round", 2), ("square", 4)]

/-- The DEFAULT_SEATS fallback of crud.py. -/
def DEFAULT_SEATS : ℕ := 6

/-- Embedding of crud.replace_all_tables: delete every existing table
row, then insert one row per submitted entry, computing the seat count
with SEATS_BY_TYPE.get(type, DEFAULT_SEATS) and setting
is_available=True unconditionally. -/
def replace_all_tables (_oldTables : List Table) (tables_data : List TableData) :
    List Table :=
  tables_data.map (fun d =>
    { number := d.number
      type := d.type
      seats := ((SEATS_BY_TYPE.lookup d.type).getD DEFAULT_SEATS)
      is_available := true
      x := d.x
      y := d.y })

-- ── Users: admin-role toggle (crud.py and the main.py route) ───────────────────

/-- Embedding of crud.toggle_user_admin applied to the user row with
the given id: flip its is_admin flag. -/
def toggle_user_admin (users : List User) (uid : ℕ) : List User :=
  users.map (fun u => if u.id = uid then { u with is_admin := !u.is_admin } else u)

/-- Outcome of the admin-toggle route, one constructor per exit path of
main.admin_toggle_user_admin. -/
inductive ToggleAdminOutcome where
  | forbidden
  | invalidForm
  | selfToggleRefused
  | targetNotFound
  | toggled
deriving DecidableEq, Repr

/-- Embedding of the main.py route admin_toggle_user_admin: the
login_required and admin_required guards, the CSRF-form check, the
self-target refusal (flash warning, redirect, no write), the 404 on an
unknown target, and finally crud.toggle_user_admin. -/
def admin_toggle_user_admin (currentUser : Option User) (formValid : Bool)
    (target_id : ℕ) (users : List User) : ToggleAdminOutcome × List User :=
  match currentUser with
  | none => (ToggleAdminOutcome.forbidden, users)
  | some cu =>
      if ¬cu.is_admin then (ToggleAdminOutcome.forbidden, users)
      else if ¬formValid then (ToggleAdminOutcome.invalidForm, users)
      else if target_id = cu.id then (ToggleAdminOutcome.selfToggleRefused, users)
      else
        match users.find? (fun u => u.id = target_id) with
        | none => (ToggleAdminOutcome.targetNotFound, users)
        | some _ => (ToggleAdminOutcome.toggled, toggle_user_admin users target_id)

-- ── Order placement (main.py create_order over crud.py) ────────────────────────

/-- Database state for the order-placement flow.  next_order_id models
the autoincrement primary key the session flush assigns. -/
structure DB where
  products : List Product
  cart_items : List CartItem
  orders : List Order
  order_items : List OrderItem
  next_order_id : ℕ
deriving DecidableEq, Repr

/-- Embedding of crud.get_cart_items: the cart rows of one user. -/
def get_cart_items (db : DB) (uid : ℕ) : List CartItem :=
  db.cart_items.filter (fun i => i.user_id = uid)

/-- ORM relationship cart_item.product: the product row referenced by a
cart item, absent if the row does not exist. -/
def cart_item_product (db : DB) (i : CartItem) : Option Product :=
  db.products.find? (fun p => p.id = i.product_id)

/-- The total the route computes: sum of i.product.price * i.quantity
over the cart; none models the exception raised on a dangling product
reference (which aborts the request before anything is committed). -/
def order_total (db : DB) : List CartItem → Option ℚ
  | [] => some 0
  | i :: rest =>
      match cart_item_product db i with
      | none => none
      | some p =>
          match order_total db rest with
          | none => none
          | some t => some (p.price * (i.quantity : ℚ) + t)

/-- Embedding of crud.add_order_item for every cart row: the OrderItem
snapshots copying product name, price and quantity; none models the
exception on a dangling product reference. -/
def order_item_snapshots (db : DB) (oid : ℕ) :
    List CartItem → Option (List OrderItem)
  | [] => some []
  | i :: rest =>
      match cart_item_product db i with
      | none => none
      | some p =>
          match order_item_snapshots db oid rest with
          | none => none
          | some snaps =>
              some (OrderItem.mk oid i.product_id p.name p.price i.quantity
                :: snaps)

/-- Outcome of the order-placement route, one constructor per exit path
of main.create_order; internalError is an exception escaping before the
single commit, leaving the transaction uncommitted. -/
inductive CreateOrderOutcome where
  | invalidForm
  | emptyCart
  | internalError
  | placed (order_id : ℕ)
deriving DecidableEq, Repr

/-- Embedding of the main.py route create_order.  The source stages the
order (crud.create_order only flushes), stages one snapshot per cart row
(crud.add_order_item only adds), deletes the cart rows and commits once
(inside crud.clear_cart, with the trailing crud.commit a no-op), so the
persisted effect is all-or-nothing: every non-placed exit returns the
state unchanged. -/
def create_order_route (db : DB) (uid : ℕ) (formValid : Bool)
    (otype : OrderType) (phone address : String) :
    CreateOrderOutcome × DB :=
  if ¬formValid then (CreateOrderOutcome.invalidForm, db)
  else if get_cart_items db uid = [] then (CreateOrderOutcome.emptyCart, db)
  else
    match order_total db (get_cart_items db uid) with
    | none => (CreateOrderOutcome.internalError, db)
    | some total =>
        match order_item_snapshots db db.next_order_id
            (get_cart_items db uid) with
        | none => (CreateOrderOutcome.internalError, db)
        | some snaps =>
            (CreateOrderOutcome.placed db.next_order_id,
             { products := db.products
               cart_items := db.cart_items.filter (fun i => i.user_id ≠ uid)
               orders := db.orders ++
                 [{ id := db.next_order_id
                    user_id := uid
                    total := total
                    status := OrderStatus.new
                    order_type := otype
                    payment_status := PaymentStatus.pending
                    phone := phone
                    delivery_address := address }]
               order_items := db.order_items ++ snaps
               next_order_id := db.next_order_id + 1 })

-- ── Payment callback (main.py and app.py liqpay_order_callback) ────────────────

/-- The two fields the callback reads from the decoded JSON payload. -/
structure CallbackData where
  order_id : Option String
  status : Option String
deriving DecidableEq, Repr

/-- Embedding of the order-id extraction of the callback:
int(received_order_id.split("_")[1]), with none for the caught
IndexError or ValueError. -/
def extractOrderId (s : String) : Option ℤ :=
  match (splitOnChar '_' s.data)[1]? with
  | none => none
  | some seg => pyIntChars seg

/-- Embedding of crud.update_payment_status on the order row with the
given id. -/
def set_payment_status (orders : List Order) (oid : ℕ) (ps : PaymentStatus) :
    List Order :=
  orders.map (fun o => if o.id = oid then { o with payment_status := ps } else o)

/-- Embedding of the main.py route liqpay_order_callback, returning
(body, HTTP status, orders).  verify stands for verify_liqpay_signature
with the ambient private key, decodeData for base64-decode plus JSON
parse (none models the exception path).  A missing form field and an
empty one are both falsy in the source, so fields arrive as
Option String and are tested against "" after getD "". -/
def liqpay_order_callback (verify : String → String → Bool)
    (decodeData : String → Option CallbackData)
    (dataField signatureField : Option String) (orders : List Order) :
    String × ℕ × List Order :=
  let data_b64 := dataField.getD ""
  let signature := signatureField.getD ""
  if data_b64 = "" ∨ signature = "" then ("Missing data", 400, orders)
  else if ¬verify data_b64 signature then ("Invalid signature", 400, orders)
  else
    match decodeData data_b64 with
    | none => ("Error processing callback", 500, orders)
    | some data =>
        match data.order_id with
        | none => ("Missing order_id", 400, orders)
        | some oid =>
            if oid = "" then ("Missing order_id", 400, orders)
            else
              match extractOrderId oid with
              | none => ("Invalid order_id format", 400, orders)
              | some n =>
                  match orders.find? (fun o => (o.id : ℤ) = n) with
                  | none => ("Order not found", 404, orders)
                  | some order =>
                      if order.payment_status ≠ PaymentStatus.pending then
                        ("OK", 200, orders)
                      else if data.status = some "success" ∨
                          data.status = some "sandbox" then
                        ("OK", 200,
                         set_payment_status orders order.id PaymentStatus.paid)
                      else if data.status = some "failure" ∨
                          data.status = some "error" ∨
                          data.status = some "reversed" then
                        ("OK", 200,
                         set_payment_status orders order.id PaymentStatus.failed)
                      else ("OK", 200, orders)

/-- Embedding of the app.py (monolith) route liqpay_order_callback.
Identical to the modularized route except that the failure branch
responds with body "FAILED" (each branch has its own return in the
monolith). -/
def app_liqpay_order_callback (verify : String → String → Bool)
    (decodeData : String → Option CallbackData)
    (dataField signatureField : Option String) (orders : List Order) :
    String × ℕ × List Order :=
  let data_b64 := dataField.getD ""
  let signature := signatureField.getD ""
  if data_b64 = "" ∨ signature = "" then ("Missing data", 400, orders)
  else if ¬verify data_b64 signature then ("Invalid signature", 400, orders)
  else
    match decodeData data_b64 with
    | none => ("Error processing callback", 500, orders)
    | some data =>
        match data.order_id with
        | none => ("Missing order_id", 400, orders)
        | some oid =>
            if oid = "" then ("Missing order_id", 400, orders)
            else
              match extractOrderId oid with
              | none => ("Invalid order_id format", 400, orders)
              | some n =>
                  match orders.find? (fun o => (o.id : ℤ) = n) with
                  | none => ("Order not found", 404, orders)
                  | some order =>
                      if order.payment_status ≠ PaymentStatus.pending then
                        ("OK", 200, orders)
                      else if data.status = some "success" ∨
                          data.status = some "sandbox" then
                        ("OK", 200,
                         set_payment_status orders order.id PaymentStatus.paid)
                      else if data.status = some "failure" ∨
                          data.status = some "error" ∨
                          data.status = some "reversed" then
                        ("FAILED", 200,
                         set_payment_status orders order.id PaymentStatus.failed)
                      else ("OK", 200, orders)

-- ── Theorems ───────────────────────────────────────────────────────────────────

/-- C5: for every private key K and base64 payload P, signature
verification accepts a received signature if and only if it equals
base64(SHA1(K ++ P ++ K)) over the raw byte concatenation with no
separator; every other signature, and any request when the private key
is unset (or empty, which the source treats as unset), is rejected. -/
theorem signature_verification_exact_match (sha1 : List ℕ → List ℕ) :
    (∀ k P sig, verify_liqpay_signature sha1 (some k) P sig = true ↔
      k ≠ "" ∧
        sig = b64encode (sha1 (utf8Bytes k ++ utf8Bytes P ++ utf8Bytes k))) ∧
    (∀ P sig, verify_liqpay_signature sha1 none P sig = false) := by
  constructor
  · intro k P sig
    by_cases hk : k = "" <;>
      simp [verify_liqpay_signature, hk, eq_comm]
  · intro P sig
    rfl

/-- C7: every row inserted by table replace-all gets its seat count
purely from its type tag: 2 for "round", 4 for "square", and the
default 6 for any other tag. -/
theorem replace_all_tables_seat_policy (old : List Table)
    (tables_data : List TableData) (t : Table)
    (h : t ∈ replace_all_tables old tables_data) :
    t.seats = if t.type = "round" then 2
      else if t.type = "square" then 4 else 6 := by
  simp only [replace_all_tables, List.mem_map] at h
  obtain ⟨d, _, rfl⟩ := h
  by_cases h1 : d.type = "round"
  · simp [SEATS_BY_TYPE, List.lookup, h1]
  · by_cases h2 : d.type = "square"
    · simp [SEATS_BY_TYPE, List.lookup, h1, h2]
    · have b1 : (d.type == "round") = false := by simp [h1]
      have b2 : (d.type == "square") = false := by simp [h2]
      simp [SEATS_BY_TYPE, DEFAULT_SEATS, List.lookup, b1, b2, h1, h2]

/-- Witness for C7: a concrete replace-all over one round, one square
and one unrecognized "lounge" table. -/
theorem replace_all_tables_seat_policy_witness :
    ((Table.mk 3 "lounge" 6 true 0 0).seats =
      if (Table.mk 3 "lounge" 6 true 0 0).type = "round" then 2
      else if (Table.mk 3 "lounge" 6 true 0 0).type = "square" then 4
      else 6) :=
  replace_all_tables_seat_policy []
    [⟨1, "round", 0, 0⟩, ⟨2, "square", 0, 0⟩, ⟨3, "lounge", 0, 0⟩] _
    (by decide)

/-- C9 (implicit): after every successful table replace-all, every
resulting table row has is_available = true, whatever the availability
flags of the tables that existed before. -/
theorem replace_all_tables_all_available (old : List Table)
    (tables_data : List TableData) (t : Table)
    (h : t ∈ replace_all_tables old tables_data) :
    t.is_available = true := by
  simp only [replace_all_tables, List.mem_map] at h
  obtain ⟨d, _, rfl⟩ := h
  rfl

/-- Witness for C9: replacing a layout whose only table a reservation
had marked unavailable re-inserts it with is_available = true. -/
theorem replace_all_tables_all_available_witness :
    (Table.mk 1 "round" 2 true 5 5).is_available = true :=
  replace_all_tables_all_available
    [⟨1, "round", 2, false, 5, 5⟩] [⟨1, "round", 5, 5⟩] _ (by decide)

/-- C8: when an authenticated admin invokes the admin-role toggle with
a target id equal to their own id, the route exits through the warning
branch and the user table is returned exactly as it was, so the caller
is_admin flag and every other user field are unchanged. -/
theorem admin_self_toggle_refused (cu : User) (users : List User)
    (target_id : ℕ) (hadmin : cu.is_admin = true) (hself : target_id = cu.id) :
    admin_toggle_user_admin (some cu) true target_id users =
      (ToggleAdminOutcome.selfToggleRefused, users) := by
  simp [admin_toggle_user_admin, hadmin, hself]

/-- Witness for C8: a concrete admin targeting their own id. -/
theorem admin_self_toggle_refused_witness :
    admin_toggle_user_admin (some (User.mk 1 "a@b.c" true true)) true 1
      [User.mk 1 "a@b.c" true true, User.mk 2 "d@e.f" false true] =
      (ToggleAdminOutcome.selfToggleRefused,
       [User.mk 1 "a@b.c" true true, User.mk 2 "d@e.f" false true]) :=
  admin_self_toggle_refused (User.mk 1 "a@b.c" true true)
    [User.mk 1 "a@b.c" true true, User.mk 2 "d@e.f" false true] 1 rfl rfl

/-- C2 (code bug): the menu route of main.py renders
crud.get_all_products(), so a product that is unavailable or
soft-deleted still appears on the menu page, while
crud.get_available_products (never called by the route) and the menu
route of the monolith do filter it out. -/
theorem menu_shows_unavailable_and_deleted :
    menu_products [Product.mk 1 "Old dish" 10 0 false true 0] =
      [Product.mk 1 "Old dish" 10 0 false true 0] ∧
    get_available_products [Product.mk 1 "Old dish" 10 0 false true 0] = [] ∧
    app_menu_products [Product.mk 1 "Old dish" 10 0 false true 0] = [] :=
  ⟨rfl, rfl, rfl⟩

/-- C6: replaying a validly signed "success" callback for an order
whose payment status is already paid responds "OK"/200 and returns the
order list exactly as it was, so the payment status and every other
order field are unchanged. -/
theorem callback_replay_idempotent (verify : String → String → Bool)
    (decodeData : String → Option CallbackData) (d s : String)
    (orders : List Order) (data : CallbackData) (oid : String) (n : ℤ)
    (order : Order)
    (hd : d ≠ "") (hs : s ≠ "") (hv : verify d s = true)
    (hdec : decodeData d = some data) (hoid : data.order_id = some oid)
    (hoidne : oid ≠ "") (hex : extractOrderId oid = some n)
    (hfind : orders.find? (fun o => (o.id : ℤ) = n) = some order)
    (hpaid : order.payment_status = PaymentStatus.paid)
    (_hstatus : data.status = some "success") :
    liqpay_order_callback verify decodeData (some d) (some s) orders =
      ("OK", 200, orders) := by
  have hnp : order.payment_status ≠ PaymentStatus.pending := by
    rw [hpaid]; intro hc; cases hc
  simp [liqpay_order_callback, hd, hs, hv, hdec, hoid, hoidne, hex, hfind, hnp]

/-- Witness for C6: a concrete replay of a verified success callback
against an order already paid. -/
theorem callback_replay_idempotent_witness :
    liqpay_order_callback (fun _ _ => true)
      (fun _ => some ⟨some "ORDER_1", some "success"⟩)
      (some "D") (some "S")
      [Order.mk 1 7 10 OrderStatus.new OrderType.delivery
        PaymentStatus.paid "123" "addr"] =
      ("OK", 200,
       [Order.mk 1 7 10 OrderStatus.new OrderType.delivery
         PaymentStatus.paid "123" "addr"]) :=
  callback_replay_idempotent (fun _ _ => true)
    (fun _ => some ⟨some "ORDER_1", some "success"⟩) "D" "S"
    [Order.mk 1 7 10 OrderStatus.new OrderType.delivery
      PaymentStatus.paid "123" "addr"]
    ⟨some "ORDER_1", some "success"⟩ "ORDER_1" 1
    (Order.mk 1 7 10 OrderStatus.new OrderType.delivery
      PaymentStatus.paid "123" "addr")
    (by decide) (by decide) rfl rfl rfl (by decide) (by decide)
    (by decide) rfl rfl

/-- C10 (implicit): the callback extracts the order id by splitting the
received order_id string on the underscore and parsing the second
segment as an integer, never checking the ORDER prefix or rejecting
extra segments; any string whose second underscore-separated segment
parses as n — such as "X_7" or "ORDER_7_extra" — is processed against
order n. -/
theorem callback_order_id_split_semantics (verify : String → String → Bool)
    (decodeData : String → Option CallbackData) (d s : String)
    (orders : List Order) (data : CallbackData) (oid : String)
    (seg : List Char) (n : ℤ) (order : Order)
    (hd : d ≠ "") (hs : s ≠ "") (hv : verify d s = true)
    (hdec : decodeData d = some data) (hoid : data.order_id = some oid)
    (hoidne : oid ≠ "") (hseg : (splitOnChar '_' oid.data)[1]? = some seg)
    (hint : pyIntChars seg = some n)
    (hfind : orders.find? (fun o => (o.id : ℤ) = n) = some order)
    (hpending : order.payment_status = PaymentStatus.pending)
    (hstatus : data.status = some "success") :
    liqpay_order_callback verify decodeData (some d) (some s) orders =
      ("OK", 200, set_payment_status orders order.id PaymentStatus.paid) ∧
    extractOrderId "X_7" = some 7 ∧
    extractOrderId "ORDER_7_extra" = some 7 := by
  have hex : extractOrderId oid = some n := by
    simp [extractOrderId, hseg, hint]
  refine ⟨?_, by decide, by decide⟩
  simp [liqpay_order_callback, hd, hs, hv, hdec, hoid, hoidne, hex, hfind,
    hpending, hstatus]

/-- Witness for C10: a verified callback whose order_id "X_7" lacks the
ORDER prefix is still applied to order 7. -/
theorem callback_order_id_split_semantics_witness :
    liqpay_order_callback (fun _ _ => true)
      (fun _ => some ⟨some "X_7", some "success"⟩) (some "D") (some "S")
      [Order.mk 7 2 10 OrderStatus.new OrderType.takeaway
        PaymentStatus.pending "123" ""] =
      ("OK", 200,
       set_payment_status
         [Order.mk 7 2 10 OrderStatus.new OrderType.takeaway
           PaymentStatus.pending "123" ""] 7 PaymentStatus.paid) ∧
    extractOrderId "X_7" = some 7 ∧
    extractOrderId "ORDER_7_extra" = some 7 :=
  callback_order_id_split_semantics (fun _ _ => true)
    (fun _ => some ⟨some "X_7", some "success"⟩) "D" "S"
    [Order.mk 7 2 10 OrderStatus.new OrderType.takeaway
      PaymentStatus.pending "123" ""]
    ⟨some "X_7", some "success"⟩ "X_7" ['7'] 7
    (Order.mk 7 2 10 OrderStatus.new OrderType.takeaway
      PaymentStatus.pending "123" "")
    (by decide) (by decide) rfl rfl rfl (by decide) (by decide) (by decide)
    (by decide) rfl rfl

/-- Counterexample for C1 as stated: a verified "failure" callback on a
pending order in the modularized route (main.py) does transition the
payment status to failed, but responds with body "OK", not "FAILED" —
every accepted branch of that route shares the single final
return "OK", 200. -/
theorem callback_failure_body_counterexample :
    liqpay_order_callback (fun _ _ => true)
      (fun _ => some ⟨some "ORDER_1", some "failure"⟩) (some "D") (some "S")
      [Order.mk 1 4 10 OrderStatus.new OrderType.delivery
        PaymentStatus.pending "123" ""] =
      ("OK", 200,
       [Order.mk 1 4 10 OrderStatus.new OrderType.delivery
         PaymentStatus.failed "123" ""]) ∧
    ("OK" : String) ≠ "FAILED" := by
  refine ⟨?_, by decide⟩
  decide

/-- C1 amended: for every verified payment callback on a pending order,
statuses "success"/"sandbox" transition the payment status to paid with
response "OK"/200; statuses "failure"/"error"/"reversed" transition it
to failed, with response body "OK"/200 in the modularized route — only
the monolith variant responds "FAILED"/200; any other status leaves the
payment status unchanged and is acknowledged "OK"/200 (both
variants). -/
theorem callback_status_transitions (verify : String → String → Bool)
    (decodeData : String → Option CallbackData) (d s : String)
    (orders : List Order) (data : CallbackData) (oid : String) (n : ℤ)
    (order : Order)
    (hd : d ≠ "") (hs : s ≠ "") (hv : verify d s = true)
    (hdec : decodeData d = some data) (hoid : data.order_id = some oid)
    (hoidne : oid ≠ "") (hex : extractOrderId oid = some n)
    (hfind : orders.find? (fun o => (o.id : ℤ) = n) = some order)
    (hpending : order.payment_status = PaymentStatus.pending) :
    ((data.status = some "success" ∨ data.status = some "sandbox") →
      liqpay_order_callback verify decodeData (some d) (some s) orders =
        ("OK", 200, set_payment_status orders order.id PaymentStatus.paid) ∧
      app_liqpay_order_callback verify decodeData (some d) (some s) orders =
        ("OK", 200, set_payment_status orders order.id PaymentStatus.paid)) ∧
    ((data.status = some "failure" ∨ data.status = some "error" ∨
        data.status = some "reversed") →
      liqpay_order_callback verify decodeData (some d) (some s) orders =
        ("OK", 200, set_payment_status orders order.id PaymentStatus.failed) ∧
      app_liqpay_order_callback verify decodeData (some d) (some s) orders =
        ("FAILED", 200,
         set_payment_status orders order.id PaymentStatus.failed)) ∧
    (¬(data.status = some "success" ∨ data.status = some "sandbox") →
      ¬(data.status = some "failure" ∨ data.status = some "error" ∨
        data.status = some "reversed") →
      liqpay_order_callback verify decodeData (some d) (some s) orders =
        ("OK", 200, orders) ∧
      app_liqpay_order_callback verify decodeData (some d) (some s) orders =
        ("OK", 200, orders)) := by
  refine ⟨?_, ?_, ?_⟩
  · intro hst
    constructor <;>
      simp [liqpay_order_callback, app_liqpay_order_callback, hd, hs, hv,
        hdec, hoid, hoidne, hex, hfind, hpending, hst]
  · intro hst
    have hns : ¬(data.status = some "success" ∨ data.status = some "sandbox") := by
      rcases hst with h | h | h <;> rw [h] <;> rintro (hc | hc) <;>
        simp at hc
    constructor <;>
      simp [liqpay_order_callback, app_liqpay_order_callback, hd, hs, hv,
        hdec, hoid, hoidne, hex, hfind, hpending, hns, hst]
  · intro hns hnf
    constructor <;>
      simp [liqpay_order_callback, app_liqpay_order_callback, hd, hs, hv,
        hdec, hoid, hoidne, hex, hfind, hpending, hns, hnf]

/-- Witness for C1 amended: a concrete verified "failure" callback on a
pending order, in both route variants. -/
theorem callback_status_transitions_witness :
    liqpay_order_callback (fun _ _ => true)
      (fun _ => some ⟨some "ORDER_1", some "failure"⟩) (some "D") (some "S")
      [Order.mk 1 4 10 OrderStatus.new OrderType.delivery
        PaymentStatus.pending "123" ""] =
      ("OK", 200,
       set_payment_status
         [Order.mk 1 4 10 OrderStatus.new OrderType.delivery
           PaymentStatus.pending "123" ""] 1 PaymentStatus.failed) ∧
    app_liqpay_order_callback (fun _ _ => true)
      (fun _ => some ⟨some "ORDER_1", some "failure"⟩) (some "D") (some "S")
      [Order.mk 1 4 10 OrderStatus.new OrderType.delivery
        PaymentStatus.pending "123" ""] =
      ("FAILED", 200,
       set_payment_status
         [Order.mk 1 4 10 OrderStatus.new OrderType.delivery
           PaymentStatus.pending "123" ""] 1 PaymentStatus.failed) :=
  (callback_status_transitions (fun _ _ => true)
    (fun _ => some ⟨some "ORDER_1", some "failure"⟩) "D" "S"
    [Order.mk 1 4 10 OrderStatus.new OrderType.delivery
      PaymentStatus.pending "123" ""]
    ⟨some "ORDER_1", some "failure"⟩ "ORDER_1" 1
    (Order.mk 1 4 10 OrderStatus.new OrderType.delivery
      PaymentStatus.pending "123" "")
    (by decide) (by decide) rfl rfl rfl (by decide) (by decide) (by decide)
    rfl).2.1 (Or.inl rfl)

/-- Case split over the exits of the order-placement route: every exit
either hands back the state unchanged or is the placed exit (the single
commit of the transaction). -/
theorem create_order_route_cases (db : DB) (uid : ℕ) (fv : Bool)
    (ot : OrderType) (ph ad : String) :
    (create_order_route db uid fv ot ph ad).2 = db ∨
    (create_order_route db uid fv ot ph ad).1 =
      CreateOrderOutcome.placed db.next_order_id := by
  unfold create_order_route
  split
  · left; rfl
  · split
    · left; rfl
    · split
      · left; rfl
      · split
        · left; rfl
        · right; rfl

/-- C4: placing an order from the cart {(Pizza, price 10.00, qty 2),
(Cola, price 5.50, qty 1)} yields an order with total exactly 25.50
(= 51/2), exactly the two order-item snapshots with those (name, price,
quantity) values, and an empty cart for the ordering user; and the
route is all-or-nothing: every non-placed exit (invalid form, empty
cart, or an exception before the single commit) returns the database
exactly as it was. -/
theorem order_placement_snapshot_total_atomic :
    create_order_route
      (DB.mk [Product.mk 1 "Pizza" 10 0 true false 0,
              Product.mk 2 "Cola" (11/2) 0 true false 1]
        [CartItem.mk 5 1 2, CartItem.mk 5 2 1] [] [] 1)
      5 true OrderType.delivery "123" "addr" =
      (CreateOrderOutcome.placed 1,
       DB.mk [Product.mk 1 "Pizza" 10 0 true false 0,
              Product.mk 2 "Cola" (11/2) 0 true false 1]
         []
         [Order.mk 1 5 (51/2) OrderStatus.new OrderType.delivery
           PaymentStatus.pending "123" "addr"]
         [OrderItem.mk 1 1 "Pizza" 10 2, OrderItem.mk 1 2 "Cola" (11/2) 1]
         2) ∧
    (∀ (db : DB) (uid : ℕ) (fv : Bool) (ot : OrderType) (ph ad : String),
      ((create_order_route db uid fv ot ph ad).1 =
          CreateOrderOutcome.invalidForm ∨
        (create_order_route db uid fv ot ph ad).1 =
          CreateOrderOutcome.emptyCart ∨
        (create_order_route db uid fv ot ph ad).1 =
          CreateOrderOutcome.internalError) →
      (create_order_route db uid fv ot ph ad).2 = db) := by
  constructor
  · norm_num [create_order_route, get_cart_items, order_total,
      order_item_snapshots, cart_item_product, List.filter, List.find?]
    decide
  · intro db uid fv ot ph ad h
    rcases create_order_route_cases db uid fv ot ph ad with h2 | h2
    · exact h2
    · rcases h with h1 | h1 | h1 <;> rw [h1] at h2 <;> cases h2

/-- Witness for C4: placing an order with an empty cart leaves the
database unchanged. -/
theorem order_placement_snapshot_total_atomic_witness :
    (create_order_route (DB.mk [] [] [] [] 1) 5 true OrderType.delivery
      "123" "").2 = DB.mk [] [] [] [] 1 :=
  order_placement_snapshot_total_atomic.2 (DB.mk [] [] [] [] 1) 5 true
    OrderType.delivery "123" "" (Or.inr (Or.inl (by decide)))

/-- An upsert for a user with no existing rating row appends a new row,
as the add branch of crud.add_or_update_rating does. -/
theorem upsertRating_append (uid : ℕ) (v : ℚ) (rs : List RatingEntry)
    (h : ∀ e ∈ rs, e.user_id ≠ uid) :
    upsertRating uid v rs = rs ++ [⟨uid, v⟩] := by
  induction rs with
  | nil => rfl
  | cons e rest ih =>
      have he : e.user_id ≠ uid := h e (List.mem_cons_self e rest)
      simp only [upsertRating, if_neg he, List.cons_append, List.cons.injEq,
        true_and]
      exact ih (fun e2 h2 => h e2 (List.mem_cons_of_mem e h2))

/-- Sequentially upserting in-range ratings by users none of whom has
an existing row, all pairwise distinct, appends one row per pair and
leaves the displayed rating recomputed over the final row list. -/
theorem addAllRatings_ok (pairs : List (ℕ × ℚ)) :
    ∀ st : ProductRatingState,
    (∀ p ∈ pairs, 1 ≤ p.2 ∧ p.2 ≤ 5) →
    (pairs.map Prod.fst).Nodup →
    (∀ p ∈ pairs, ∀ e ∈ st.ratings, e.user_id ≠ p.1) →
    pairs ≠ [] →
    addAllRatings st pairs = Except.ok
      ⟨st.ratings ++ pairs.map (fun p => ⟨p.1, p.2⟩),
       recalculate_product_rating
         (st.ratings ++ pairs.map (fun p => ⟨p.1, p.2⟩))⟩ := by
  induction pairs with
  | nil => intro st _ _ _ hne; exact absurd rfl hne
  | cons p rest ih =>
      obtain ⟨u, v⟩ := p
      intro st hrange hnodup hfresh _
      have hv : 1 ≤ v ∧ v ≤ 5 := hrange (u, v) (List.mem_cons_self _ rest)
      have hups : upsertRating u v st.ratings = st.ratings ++ [⟨u, v⟩] :=
        upsertRating_append u v st.ratings
          (fun e he => hfresh (u, v) (List.mem_cons_self _ rest) e he)
      have hnodup2 : (u :: rest.map Prod.fst).Nodup := by simpa using hnodup
      have hnod := List.nodup_cons.mp hnodup2
      simp only [addAllRatings, add_or_update_rating,
        if_neg (not_not_intro hv), hups]
      cases rest with
      | nil => simp [addAllRatings]
      | cons q qs =>
          rw [ih ⟨st.ratings ++ [RatingEntry.mk u v],
              recalculate_product_rating (st.ratings ++ [RatingEntry.mk u v])⟩
            (fun p2 h2 => hrange p2 (List.mem_cons_of_mem _ h2))
            hnod.2
            (fun p2 h2 e he => by
              rcases List.mem_append.mp he with he2 | he2
              · exact hfresh p2 (List.mem_cons_of_mem _ h2) e he2
              · have heq : e = RatingEntry.mk u v := by simpa using he2
                rw [heq]
                intro hc
                apply hnod.1
                rw [show u = p2.1 from hc]
                exact List.mem_map.mpr ⟨p2, h2, rfl⟩)
            (by simp)]
          simp

/-- C3: upserting a sequence of ratings v1..vn, each in [1, 5], by
pairwise-distinct users against a product with no prior ratings leaves
the displayed rating equal to round(mean(v1..vn), 1) under the Python
half-to-even rounding; a value outside [1, 5] is rejected with the
ValueError of the source and no state is produced; and a deletion that
removes the last rating row of a product leaves the displayed rating
recomputed to 0. -/
theorem rating_mean_rejection_reset :
    (∀ pairs : List (ℕ × ℚ),
      (∀ p ∈ pairs, 1 ≤ p.2 ∧ p.2 ≤ 5) →
      (pairs.map Prod.fst).Nodup →
      pairs ≠ [] →
      addAllRatings ⟨[], 0⟩ pairs = Except.ok
        ⟨pairs.map (fun p => ⟨p.1, p.2⟩),
         pyRound1 ((pairs.map Prod.snd).sum / pairs.length)⟩) ∧
    (∀ (st : ProductRatingState) (uid : ℕ) (v : ℚ),
      v < 1 ∨ 5 < v →
      add_or_update_rating st uid v =
        Except.error "Rating must be between 1 and 5") ∧
    (∀ (st st2 : ProductRatingState) (uid : ℕ),
      delete_rating st uid = some st2 → st2.ratings = [] →
      st2.rating = 0) := by
  refine ⟨?_, ?_, ?_⟩
  · intro pairs hrange hnodup hne
    rw [addAllRatings_ok pairs ⟨[], 0⟩ hrange hnodup (by simp) hne]
    have hmapne : pairs.map (fun p : ℕ × ℚ => (⟨p.1, p.2⟩ : RatingEntry)) ≠ [] := by
      simpa using hne
    simp only [List.nil_append, Except.ok.injEq, ProductRatingState.mk.injEq,
      true_and]
    simp only [recalculate_product_rating, if_neg hmapne, List.map_map,
      List.length_map]
    rfl
  · intro st uid v hv
    have hc : ¬(1 ≤ v ∧ v ≤ 5) := by
      rcases hv with h | h <;> rintro ⟨h1, h2⟩ <;> linarith
    simp [add_or_update_rating, hc]
  · intro st st2 uid h hrat
    unfold delete_rating at h
    split at h
    · cases h
    · have h2 := Option.some.inj h
      rw [← h2] at hrat ⊢
      simp only at hrat ⊢
      rw [hrat]
      norm_num [recalculate_product_rating, pyRound1, roundHalfEven]

/-- Witness for C3: two users rate 5 and 4, giving displayed rating
round(4.5, 1); the value 6 is rejected; deleting the single rating of a
product resets the displayed rating to 0. -/
theorem rating_mean_rejection_reset_witness :
    addAllRatings ⟨[], 0⟩ [((1 : ℕ), (5 : ℚ)), (2, 4)] = Except.ok
      ⟨[((1 : ℕ), (5 : ℚ)), (2, 4)].map (fun p => ⟨p.1, p.2⟩),
       pyRound1 (([((1 : ℕ), (5 : ℚ)), (2, 4)].map Prod.snd).sum /
         ([((1 : ℕ), (5 : ℚ)), (2, 4)].length))⟩ ∧
    add_or_update_rating ⟨[], 0⟩ 1 6 =
      Except.error "Rating must be between 1 and 5" ∧
    (⟨[], recalculate_product_rating []⟩ : ProductRatingState).rating = 0 :=
  ⟨rating_mean_rejection_reset.1 [((1 : ℕ), (5 : ℚ)), (2, 4)] (by decide)
      (by decide) (by decide),
   rating_mean_rejection_reset.2.1 ⟨[], 0⟩ 1 6 (Or.inr (by norm_num)),
   rating_mean_rejection_reset.2.2 ⟨[⟨1, 3⟩], 3⟩
     ⟨[], recalculate_product_rating []⟩ 1 rfl rfl⟩

/-- Witness for C5: with the private key unset, verification rejects a
concrete request. -/
theorem signature_verification_exact_match_witness :
    verify_liqpay_signature (fun _ => [0]) none "payload" "sig" = false :=
  (signature_verification_exact_match (fun _ => [0])).2 "payload" "sig"
